import Mathlib

/-
Shallow embedding of the redisearch-go schema builder
(src/redisearch/schema.go) and verification of its specification.

Modelling conventions:
  * Go booleans become Bool; Go strings become String.
  * The Go slice `Stopwords []string` may be nil: it is modelled as
    Option (List String), with none standing for the nil slice.
  * The Go slice `Fields []Field` of Schema may likewise be nil, and
    AddField lazily initializes it, so it is Option (List Field).
  * A Go byte is a Nat below 256; the comma byte is Char.toNat ',' = 44.
  * float32 carries no arithmetic in this code, values are only stored
    and read back, so the Float type is an adequate stand-in.
  * The dynamically typed slot `Options interface` of Field holds nil,
    a TextFieldOptions, a TagFieldOptions or a NumericFieldOptions in
    this package; it is modelled as the sum type FieldOptions, with
    nilValue standing for the nil interface value.
  * Go struct literals leave omitted fields at their zero value
    (false, nil); the embedding spells those zero values out.
  * Methods that mutate the receiver and return it become functions
    from the receiver state to the new state; the returned pointer of
    the Go code is the new state here.
-/

namespace RediSearch

/-- Index-level options, Go struct Options of schema.go. Stopwords is
none when the Go slice is nil. -/
structure Options where
  NoSave : Bool
  NoFieldFlags : Bool
  NoFrequencies : Bool
  NoOffsetVectors : Bool
  Stopwords : Option (List String)

/-- Go zero value of the Options struct: all booleans false, nil slice. -/
def Options.zeroValue : Options :=
  { NoSave := false
    NoFieldFlags := false
    NoFrequencies := false
    NoOffsetVectors := false
    Stopwords := none }

/-- Go variable DefaultOptions of schema.go. -/
def DefaultOptions : Options :=
  { NoSave := false
    NoFieldFlags := false
    NoFrequencies := false
    NoOffsetVectors := false
    Stopwords := none }

/-- Enumeration FieldType of schema.go. -/
inductive FieldType where
  | TextField
  | NumericField
  | GeoField
  | TagField

/-- Go struct TextFieldOptions of schema.go. -/
structure TextFieldOptions where
  Weight : Float
  Sortable : Bool
  NoStem : Bool
  NoIndex : Bool

/-- Go struct TagFieldOptions of schema.go. Separator is a byte. -/
structure TagFieldOptions where
  Separator : Nat
  NoIndex : Bool
  Sortable : Bool

/-- Go struct NumericFieldOptions of schema.go. -/
structure NumericFieldOptions where
  Sortable : Bool
  NoIndex : Bool

/-- The value held by the dynamically typed Options slot of a Field:
nil, or one of the three options structs used in this package. -/
inductive FieldOptions where
  | nilValue
  | text : TextFieldOptions → FieldOptions
  | tag : TagFieldOptions → FieldOptions
  | numeric : NumericFieldOptions → FieldOptions

/-- Go struct Field of schema.go. The Go field named Type is rendered
Typ because Type is reserved in Lean. -/
structure Field where
  Name : String
  Typ : FieldType
  Sortable : Bool
  Options : FieldOptions

/-- Whether a FieldOptions value is the variant matching the given
FieldType (the consistency the spec says is never validated). -/
def variantMatches : FieldType → FieldOptions → Bool
  | FieldType.TextField, FieldOptions.text _ => true
  | FieldType.TagField, FieldOptions.tag _ => true
  | FieldType.NumericField, FieldOptions.numeric _ => true
  | _, _ => false

/-- The comma byte used as the default tag separator. -/
def commaByte : Nat := Char.toNat ','

/-- NewTextField of schema.go: struct literal with Options nil;
Sortable is omitted in the source, hence the zero value false. -/
def NewTextField (name : String) : Field :=
  { Name := name
    Typ := FieldType.TextField
    Sortable := false
    Options := FieldOptions.nilValue }

/-- NewTextFieldOptions of schema.go: NewTextField then overwrite the
Options slot with the given options. -/
def NewTextFieldOptions (name : String) (opts : TextFieldOptions) : Field :=
  let f := NewTextField name
  { f with Options := FieldOptions.text opts }

/-- NewSortableTextField of schema.go: NewTextFieldOptions with Weight
set and Sortable true; NoStem and NoIndex are omitted in the source
literal, hence false. -/
def NewSortableTextField (name : String) (weight : Float) : Field :=
  NewTextFieldOptions name
    { Weight := weight, Sortable := true, NoStem := false, NoIndex := false }

/-- NewTagField of schema.go: TagFieldOptions with the comma separator
and NoIndex false; Sortable is omitted in the source, hence false. -/
def NewTagField (name : String) : Field :=
  { Name := name
    Typ := FieldType.TagField
    Sortable := false
    Options := FieldOptions.tag
      { Separator := commaByte, NoIndex := false, Sortable := false } }

/-- NewTagFieldOptions of schema.go. -/
def NewTagFieldOptions (name : String) (opts : TagFieldOptions) : Field :=
  { Name := name
    Typ := FieldType.TagField
    Sortable := false
    Options := FieldOptions.tag opts }

/-- NewNumericField of schema.go: struct literal giving only Name and
Type; the Options slot is the zero value of the interface type, nil. -/
def NewNumericField (name : String) : Field :=
  { Name := name
    Typ := FieldType.NumericField
    Sortable := false
    Options := FieldOptions.nilValue }

/-- NewNumericFieldOptions of schema.go. -/
def NewNumericFieldOptions (name : String) (options : NumericFieldOptions) : Field :=
  let f := NewNumericField name
  { f with Options := FieldOptions.numeric options }

/-- NewSortableNumericField of schema.go: NumericFieldOptions with
Sortable true; NoIndex is omitted in the source literal, hence false. -/
def NewSortableNumericField (name : String) : Field :=
  let f := NewNumericField name
  { f with Options := FieldOptions.numeric { Sortable := true, NoIndex := false } }

/-- Go struct Schema of schema.go. Fields is none when the Go slice is
nil. -/
structure Schema where
  Fields : Option (List Field)
  Options : RediSearch.Options

/-- NewSchema of schema.go: the struct literal gives only Fields, an
empty non-nil slice; the Options member is left at its zero value and
the opts argument is never read. -/
def NewSchema (opts : RediSearch.Options) : Schema :=
  { Fields := some []
    Options := Options.zeroValue }

/-- AddField of schema.go: if the Fields slice is nil, initialize it
to the empty slice, then append f; return the updated receiver. -/
def Schema.AddField (m : Schema) (f : Field) : Schema :=
  match m.Fields with
  | none => { m with Fields := some ([] ++ [f]) }
  | some fs => { m with Fields := some (fs ++ [f]) }

/-- A finite sequence of AddField calls applied in order. -/
def Schema.addFields (m : Schema) (fs : List Field) : Schema :=
  fs.foldl Schema.AddField m

/-- The schema of the spec scenario: NewSchema with DefaultOptions,
then a text field body and a numeric field price. -/
def scenarioSchema : Schema :=
  ((NewSchema DefaultOptions).AddField (NewTextField "body")).AddField
    (NewNumericField "price")

theorem addField_fields_eq (s : Schema) (f : Field) :
    (s.AddField f).Fields = some (s.Fields.getD [] ++ [f]) := by
  cases h : s.Fields with
  | none => simp [Schema.AddField, h]
  | some fs => simp [Schema.AddField, h]

theorem addField_options_eq (s : Schema) (f : Field) :
    (s.AddField f).Options = s.Options := by
  cases h : s.Fields with
  | none => simp [Schema.AddField, h]
  | some fs => simp [Schema.AddField, h]

theorem addFields_fields_eq (s : Schema) (fs : List Field) :
    (s.addFields fs).Fields.getD [] = s.Fields.getD [] ++ fs := by
  induction fs generalizing s with
  | nil => simp [Schema.addFields]
  | cons f rest ih =>
      have h1 : s.addFields (f :: rest) = (s.AddField f).addFields rest := rfl
      rw [h1, ih, addField_fields_eq]
      simp

/-- C1: for every opts, NewSchema returns a Schema whose Fields is the
empty sequence and whose Options member is the zero value of Options
(all booleans false, Stopwords unset), and the result does not depend
on opts: the argument is not copied into it. -/
theorem newSchema_ignores_opts (opts : Options) :
    (NewSchema opts).Fields = some []
      ∧ (NewSchema opts).Options.NoSave = false
      ∧ (NewSchema opts).Options.NoFieldFlags = false
      ∧ (NewSchema opts).Options.NoFrequencies = false
      ∧ (NewSchema opts).Options.NoOffsetVectors = false
      ∧ (NewSchema opts).Options.Stopwords = none
      ∧ ∀ (other : Options), NewSchema opts = NewSchema other := by
  refine ⟨rfl, rfl, rfl, rfl, rfl, rfl, ?_⟩
  intro other
  rfl

/-- C2: a finite sequence of AddField calls appends the added fields to
the initial Fields in call order; in particular the scenario schema of
NewSchema DefaultOptions, then text field body, then numeric field
price, has exactly those two fields in that order. -/
theorem addField_preserves_call_order :
    (∀ (s : Schema) (fs : List Field),
        (s.addFields fs).Fields.getD [] = s.Fields.getD [] ++ fs)
      ∧ scenarioSchema.Fields
          = some [NewTextField "body", NewNumericField "price"]
      ∧ (scenarioSchema.Fields.getD []).length = 2
      ∧ (NewTextField "body").Name = "body"
      ∧ (NewTextField "body").Typ = FieldType.TextField
      ∧ (NewNumericField "price").Name = "price"
      ∧ (NewNumericField "price").Typ = FieldType.NumericField :=
  ⟨addFields_fields_eq, rfl, rfl, rfl, rfl, rfl, rfl⟩

/-- C3: AddField returns the receiver state with f appended to Fields
(lazily initializing a nil Fields slice) and changes nothing else: the
Options member is unchanged. In this state-passing embedding the
returned Schema is the updated receiver itself, matching the Go method
returning its own receiver pointer. -/
theorem addField_frame (s : Schema) (f : Field) :
    (s.AddField f).Fields = some (s.Fields.getD [] ++ [f])
      ∧ (s.AddField f).Options = s.Options :=
  ⟨addField_fields_eq s f, addField_options_eq s f⟩

/-- C4 counterexample: NewTextField leaves the Options slot nil, so its
Options does not hold the TextFieldOptions variant the claim demands;
the same holds for NewNumericField. -/
theorem newTextField_options_nil_cex :
    (NewTextField "body").Options = FieldOptions.nilValue
      ∧ variantMatches (NewTextField "body").Typ
          (NewTextField "body").Options = false
      ∧ (NewNumericField "price").Options = FieldOptions.nilValue
      ∧ variantMatches (NewNumericField "price").Typ
          (NewNumericField "price").Options = false :=
  ⟨rfl, rfl, rfl, rfl⟩

/-- C4 amended: every constructor returns a Field of the appropriate
Type; the options-taking and sortable constructors store the matching
options variant pre-populated with the given parameters and documented
defaults, while NewTextField and NewNumericField leave the Options
slot nil. -/
theorem constructors_type_and_variant :
    (∀ (name : String),
        (NewTextField name).Typ = FieldType.TextField
          ∧ (NewTextField name).Options = FieldOptions.nilValue)
      ∧ (∀ (name : String) (opts : TextFieldOptions),
          (NewTextFieldOptions name opts).Typ = FieldType.TextField
            ∧ (NewTextFieldOptions name opts).Options = FieldOptions.text opts)
      ∧ (∀ (name : String) (weight : Float),
          (NewSortableTextField name weight).Typ = FieldType.TextField
            ∧ (NewSortableTextField name weight).Options
                = FieldOptions.text
                    { Weight := weight, Sortable := true,
                      NoStem := false, NoIndex := false })
      ∧ (∀ (name : String),
          (NewTagField name).Typ = FieldType.TagField
            ∧ (NewTagField name).Options
                = FieldOptions.tag
                    { Separator := commaByte, NoIndex := false,
                      Sortable := false })
      ∧ (∀ (name : String) (opts : TagFieldOptions),
          (NewTagFieldOptions name opts).Typ = FieldType.TagField
            ∧ (NewTagFieldOptions name opts).Options = FieldOptions.tag opts)
      ∧ (∀ (name : String),
          (NewNumericField name).Typ = FieldType.NumericField
            ∧ (NewNumericField name).Options = FieldOptions.nilValue)
      ∧ (∀ (name : String) (opts : NumericFieldOptions),
          (NewNumericFieldOptions name opts).Typ = FieldType.NumericField
            ∧ (NewNumericFieldOptions name opts).Options
                = FieldOptions.numeric opts)
      ∧ (∀ (name : String),
          (NewSortableNumericField name).Typ = FieldType.NumericField
            ∧ (NewSortableNumericField name).Options
                = FieldOptions.numeric { Sortable := true, NoIndex := false }) :=
  ⟨fun _ => ⟨rfl, rfl⟩, fun _ _ => ⟨rfl, rfl⟩, fun _ _ => ⟨rfl, rfl⟩,
    fun _ => ⟨rfl, rfl⟩, fun _ _ => ⟨rfl, rfl⟩, fun _ => ⟨rfl, rfl⟩,
    fun _ _ => ⟨rfl, rfl⟩, fun _ => ⟨rfl, rfl⟩⟩

/-- C5: NewTagField returns a Tag-typed Field whose options variant
has Separator the comma byte 44 and NoIndex false. -/
theorem newTagField_defaults (name : String) :
    (NewTagField name).Typ = FieldType.TagField
      ∧ (NewTagField name).Options
          = FieldOptions.tag
              { Separator := 44, NoIndex := false, Sortable := false }
      ∧ commaByte = 44 :=
  ⟨rfl, rfl, rfl⟩

/-- C6: NewSortableTextField returns a Text-typed Field whose options
variant has the given Weight and Sortable true. -/
theorem newSortableTextField_spec (name : String) (weight : Float) :
    (NewSortableTextField name weight).Typ = FieldType.TextField
      ∧ (NewSortableTextField name weight).Options
          = FieldOptions.text
              { Weight := weight, Sortable := true,
                NoStem := false, NoIndex := false } :=
  ⟨rfl, rfl⟩

/-- C7: NewSortableNumericField returns a Numeric-typed Field whose
options variant has Sortable true and NoIndex false. -/
theorem newSortableNumericField_spec (name : String) :
    (NewSortableNumericField name).Typ = FieldType.NumericField
      ∧ (NewSortableNumericField name).Options
          = FieldOptions.numeric { Sortable := true, NoIndex := false } :=
  ⟨rfl, rfl⟩

/-- C8: after AddField, the element of Fields added last is exactly
the Field value that was passed in, unmodified. -/
theorem addField_roundtrip (s : Schema) (f : Field) :
    ((s.AddField f).Fields.getD []).getLast? = some f := by
  rw [addField_fields_eq]
  simp

/-- C9: AddField performs no validation: even when the added field
duplicates an existing name and its options variant mismatches its
Type, the call succeeds and appends the field; with NewSchema and the
constructors being plain total value builders, every operation of this
layer is total. -/
theorem addField_no_validation (s : Schema) (f : Field)
    (hdup : f.Name ∈ (s.Fields.getD []).map Field.Name)
    (hmis : variantMatches f.Typ f.Options = false) :
    (s.AddField f).Fields = some (s.Fields.getD [] ++ [f]) :=
  addField_fields_eq s f

theorem addField_no_validation_witness :
    (Schema.AddField
        { Fields := some [NewTagField "a"], Options := Options.zeroValue }
        { Name := "a", Typ := FieldType.TextField, Sortable := false,
          Options := FieldOptions.tag
            { Separator := 44, NoIndex := false, Sortable := false } }).Fields
      = some [NewTagField "a",
          { Name := "a", Typ := FieldType.TextField, Sortable := false,
            Options := FieldOptions.tag
              { Separator := 44, NoIndex := false, Sortable := false } }] :=
  addField_no_validation
    { Fields := some [NewTagField "a"], Options := Options.zeroValue }
    { Name := "a", Typ := FieldType.TextField, Sortable := false,
      Options := FieldOptions.tag
        { Separator := 44, NoIndex := false, Sortable := false } }
    (by simp [NewTagField]) (by rfl)

/-- C10: the sortable constructors set only the Sortable flag inside
the options variant; the top-level Sortable member of the returned
Field stays false, so the two sortable indicators are out of sync. -/
theorem sortable_constructors_top_level_flag (name : String) (weight : Float) :
    (NewSortableTextField name weight).Sortable = false
      ∧ (NewSortableNumericField name).Sortable = false
      ∧ (NewSortableTextField name weight).Options
          = FieldOptions.text
              { Weight := weight, Sortable := true,
                NoStem := false, NoIndex := false }
      ∧ (NewSortableNumericField name).Options
          = FieldOptions.numeric { Sortable := true, NoIndex := false } :=
  ⟨rfl, rfl, rfl, rfl⟩

end RediSearch
